import Mathlib

/-!
Shallow embedding of `databricks_cli/pipelines/api.py` (the pipelines
deploy module) and proofs about the claims of its specification.

Modelling conventions:
- Python strings are Lean `String`s; slicing and scheme parsing are
  reimplemented over `String.data` (the underlying `List Char`).
- Python byte strings (file contents) are `List Nat` (each entry a byte).
- The filesystem, the DBFS object store and the credential providers are
  collaborators, passed in as explicit functions.
- Python exceptions become an explicit error type `PyError` whose
  constructors carry the data that the original format strings
  interpolate (cause message, offending path, missing key, profile).
- Fallible code returns `Except PyError _`.
-/

namespace DeltaPipelines

/-! ## String helpers (Python `str` operations used by the source) -/

/-- Index of the first occurrence of a character, Python `str.find`
(but `Option`-valued instead of returning -1). -/
def find_idx (c : Char) : List Char → Option Nat
  | [] => none
  | a :: rest => if a = c then some 0 else (find_idx c rest).map (· + 1)

/-- Index of the last occurrence of a character, Python `str.rfind`
(but `Option`-valued instead of returning -1). -/
def rfind_idx (c : Char) : List Char → Option Nat
  | [] => none
  | a :: rest =>
    match rfind_idx c rest with
    | some i => some (i + 1)
    | none => if a = c then some 0 else none

/-- Python slicing `s[n:]` (by code point, as in Python 3). -/
def str_drop (s : String) (n : Nat) : String :=
  String.mk (s.data.drop n)

/-- Python `s.startswith(p)`. -/
def str_startswith (s p : String) : Bool :=
  p.data.isPrefixOf s.data

/-- Python `s.lower()` (ASCII range, which is all the source compares). -/
def str_lower (s : String) : String :=
  String.mk (s.data.map Char.toLower)

/-! ## `urllib.parse.urlsplit(...).scheme`

The characters allowed in a URL scheme, and the scheme extraction rule of
`urllib.parse.urlsplit`: the text before the first `:` is the scheme iff
the colon is not the first character and every character before it is a
scheme character; the scheme is returned lowercased.  Otherwise the
scheme is the empty string. -/

def scheme_chars : List Char :=
  "abcdefghijklmnopqrstuvwxyzABCDEFGHIJKLMNOPQRSTUVWXYZ0123456789+-.".data

def urlsplit_scheme (url : String) : String :=
  match find_idx ':' url.data with
  | none => ""
  | some i =>
    if 0 < i ∧ (url.data.take i).all (fun c => scheme_chars.contains c) then
      String.mk ((url.data.take i).map Char.toLower)
    else ""

/-! ## Data model -/

/-- `LibraryObject(lib_type, lib_path)`. The path type is a parameter
because the source stores plain strings in most objects but wraps the
remote path in a `DbfsPath` inside `_get_files_to_upload` (Python duck
typing). Equality is field-wise, matching `LibraryObject.__eq__`. -/
structure LibraryObject (α : Type) where
  lib_type : String
  path : α
deriving DecidableEq, Repr

/-- `DbfsPath(absolute_path)` from the dbfs module: a wrapper around the
absolute `dbfs:/...` path string (its validation is not exercised here:
every path the pipelines module wraps starts with the fixed
`dbfs:/pipelines/code/` root). -/
structure DbfsPath where
  absolute_path : String
deriving DecidableEq, Repr

/-- Python exceptions raised by the module, as a closed error type.
Each constructor carries exactly the data interpolated into the original
exception message:
- `runtimeInvalidUri`: RuntimeError with the constant message
  about an invalid file uri scheme;
- `runtimeFileError cause path`: RuntimeError raised by
  `_get_hashed_path` when opening/reading `path` fails with `cause`;
- `runtimeUploadError cause path`: RuntimeError raised by `deploy`
  when uploading local file `path` fails with `cause`;
- `keyError key`: KeyError from a missing dictionary key;
- `invalidConfigurationError profile`: `InvalidConfigurationError.for_profile`. -/
inductive PyError where
  | runtimeInvalidUri : PyError
  | runtimeFileError (cause : String) (path : String) : PyError
  | runtimeUploadError (cause : String) (path : String) : PyError
  | keyError (key : String) : PyError
  | invalidConfigurationError (profile : Option String) : PyError
deriving DecidableEq, Repr

/-! ## `LibraryObject.convert_from_libraries` / `convert_to_libraries`

A Python library dictionary is an insertion-ordered association list
`List (String × String)`. -/

/-- `LibraryObject.convert_from_libraries`: one `LibraryObject` per
(key, value) item of each dictionary, in iteration order. -/
def LibraryObject.convert_from_libraries :
    List (List (String × String)) → List (LibraryObject String)
  | [] => []
  | library :: rest =>
    library.map (fun kv => ⟨kv.1, kv.2⟩) ++ convert_from_libraries rest

/-- `LibraryObject.convert_to_libraries`: one single-key dictionary per
`LibraryObject`, in order. -/
def LibraryObject.convert_to_libraries :
    List (LibraryObject String) → List (List (String × String))
  | [] => []
  | lib_object :: rest =>
    [(lib_object.lib_type, lib_object.path)] :: convert_to_libraries rest

/-! ## `PipelinesApi._partition_libraries_and_extract_local_paths` -/

/-- The loop body of `_partition_libraries_and_extract_local_paths`,
written as structural recursion: the head element is dispatched on
(lib_type, uri scheme) and prepended to the appropriate component of the
partition of the rest; a malformed `file:` uri aborts with
`RuntimeError('Invalid file uri scheme')`. -/
def partition_libraries_and_extract_local_paths :
    List (LibraryObject String) →
    Except PyError (List (LibraryObject String) × List (LibraryObject String))
  | [] => .ok ([], [])
  | lib_object :: rest =>
    let uri_scheme := urlsplit_scheme lib_object.path
    if lib_object.lib_type = "jar" ∧ uri_scheme = "" then
      (partition_libraries_and_extract_local_paths rest).map
        (fun lr => (lib_object :: lr.1, lr.2))
    else if lib_object.lib_type = "jar" ∧ str_lower uri_scheme = "file" then
      if str_startswith (str_drop lib_object.path 4) ":////" then
        .error .runtimeInvalidUri
      else
        (partition_libraries_and_extract_local_paths rest).map
          (fun lr => (LibraryObject.mk lib_object.lib_type (str_drop lib_object.path 5) :: lr.1,
                      lr.2))
    else
      (partition_libraries_and_extract_local_paths rest).map
        (fun lr => (lr.1, lib_object :: lr.2))

/-! ## SHA-1 (`hashlib.sha1`), machine words as `Nat` mod 2^32 -/

def w32 : Nat := 4294967296

def rotl (s n : Nat) : Nat :=
  ((n <<< s) % w32) ||| (n >>> (32 - s))

/-- Fueled chunking: splits a list into consecutive pieces of length `n`
(the last piece may be shorter), mirroring a read loop that pulls `n`
elements at a time until the stream is exhausted. -/
def chunksGo (n : Nat) : Nat → List α → List (List α)
  | _, [] => []
  | 0, _ :: _ => []
  | fuel + 1, a :: rest => ((a :: rest).take n) :: chunksGo n fuel ((a :: rest).drop n)

def chunks (n : Nat) (l : List α) : List (List α) :=
  chunksGo n l.length l

/-- Big-endian 32-bit word from four bytes. -/
def be_word (bs : List Nat) : Nat :=
  bs.foldl (fun acc b => acc * 256 + b) 0

/-- Big-endian 8-byte encoding of the 64-bit bit length. -/
def be_bytes8 (n : Nat) : List Nat :=
  [56, 48, 40, 32, 24, 16, 8, 0].map (fun s => (n >>> s) % 256)

/-- SHA-1 message padding: append 0x80, zero bytes, and the 64-bit
big-endian bit length so the total length is a multiple of 64 bytes. -/
def sha1_pad (msg : List Nat) : List Nat :=
  let len := msg.length
  let r := (len + 1) % 64
  let zeros := (120 - r) % 64
  msg ++ 0x80 :: (List.replicate zeros 0 ++ be_bytes8 (8 * len))

structure Sha1State where
  a : Nat
  b : Nat
  c : Nat
  d : Nat
  e : Nat
deriving DecidableEq, Repr

def sha1_init : Sha1State :=
  ⟨0x67452301, 0xEFCDAB89, 0x98BADCFE, 0x10325476, 0xC3D2E1F0⟩

/-- One step of the message-schedule extension: append the next word. -/
def sha1_extend_step (ws : List Nat) : List Nat :=
  let n := ws.length
  ws ++ [rotl 1 ((ws.getD (n - 3) 0) ^^^ (ws.getD (n - 8) 0) ^^^
                 (ws.getD (n - 14) 0) ^^^ (ws.getD (n - 16) 0))]

/-- One SHA-1 round, at round index `i` with schedule word `w`. -/
def sha1_round (st : Sha1State) (i w : Nat) : Sha1State :=
  let f :=
    if i < 20 then (st.b &&& st.c) ||| ((st.b ^^^ 0xFFFFFFFF) &&& st.d)
    else if i < 40 then st.b ^^^ st.c ^^^ st.d
    else if i < 60 then (st.b &&& st.c) ||| (st.b &&& st.d) ||| (st.c &&& st.d)
    else st.b ^^^ st.c ^^^ st.d
  let k :=
    if i < 20 then 0x5A827999
    else if i < 40 then 0x6ED9EBA1
    else if i < 60 then 0x8F1BBCDC
    else 0xCA62C1D6
  let temp := (rotl 5 st.a + f + st.e + k + w) % w32
  ⟨temp, st.a, rotl 30 st.b, st.c, st.d⟩

/-- Compress one 64-byte block into the running state. -/
def sha1_compress (h : Sha1State) (block : List Nat) : Sha1State :=
  let ws0 := (chunks 4 block).map be_word
  let ws := Nat.repeat sha1_extend_step 64 ws0
  let st := ws.enum.foldl (fun st iw => sha1_round st iw.1 iw.2) h
  ⟨(h.a + st.a) % w32, (h.b + st.b) % w32, (h.c + st.c) % w32,
   (h.d + st.d) % w32, (h.e + st.e) % w32⟩

def hex_digit (v : Nat) : Char :=
  Char.ofNat (if v < 10 then 48 + v else 87 + v)

def hex8 (w : Nat) : List Char :=
  (List.range 8).map (fun k => hex_digit ((w >>> (4 * (7 - k))) % 16))

/-- `sha1(msg).hexdigest()`: lowercase hex SHA-1 digest of a byte
sequence. -/
def sha1_hexdigest (msg : List Nat) : String :=
  let fin := (chunks 64 (sha1_pad msg)).foldl sha1_compress sha1_init
  String.mk (hex8 fin.a ++ hex8 fin.b ++ hex8 fin.c ++ hex8 fin.d ++ hex8 fin.e)

/-! ## `os.path.splitext(path)[1]` (POSIX flavour) -/

/-- The extension component returned by `posixpath.splitext`: the suffix
from the last dot, provided that dot lies in the final path segment and
is preceded there by at least one non-dot character (leading dots of a
hidden-file name never start an extension). -/
def splitext_ext (p : String) : String :=
  let l := p.data
  match rfind_idx '/' l, rfind_idx '.' l with
  | _, none => ""
  | none, some dotIndex =>
    if (l.take dotIndex).any (fun c => c ≠ '.') then String.mk (l.drop dotIndex) else ""
  | some sepIndex, some dotIndex =>
    if sepIndex < dotIndex then
      if ((l.drop (sepIndex + 1)).take (dotIndex - (sepIndex + 1))).any (fun c => c ≠ '.') then
        String.mk (l.drop dotIndex)
      else ""
    else ""

/-! ## `PipelinesApi._get_hashed_path` -/

def BUFFER_SIZE : Nat := 1024 * 64

def base_pipelines_dir : String := "dbfs:/pipelines/code/"

/-- `_get_hashed_path`. The filesystem collaborator `fs` maps a local
path to its byte content, or to the OS error message when the file
cannot be opened or read. The read loop feeds `BUFFER_SIZE`-byte chunks
into the running hash, so the digest is taken over the concatenation of
the chunks; the result is the fixed namespace root, the hex digest, and
`os.path.splitext(path)[1]`. -/
def get_hashed_path (fs : String → Except String (List Nat)) (path : String) :
    Except PyError String :=
  match fs path with
  | .error e => .error (.runtimeFileError e path)
  | .ok bs =>
    let file_hash := sha1_hexdigest (chunks BUFFER_SIZE bs).flatten
    .ok (base_pipelines_dir ++ file_hash ++ splitext_ext path)

/-- One element of
`list(map(lambda llo: LibraryObject(llo.lib_type, self._get_hashed_path(llo.path)), ...))`. -/
def derive_remote (fs : String → Except String (List Nat)) (llo : LibraryObject String) :
    Except PyError (LibraryObject String) :=
  (get_hashed_path fs llo.path).map (fun p => LibraryObject.mk llo.lib_type p)

/-- `list(map(...))` over the local library objects: left-to-right, the
first failing element aborts (as forcing the lazy `map` with `list`
does). -/
def derive_remotes (fs : String → Except String (List Nat)) :
    List (LibraryObject String) → Except PyError (List (LibraryObject String))
  | [] => .ok []
  | llo :: rest => do
    let r ← derive_remote fs llo
    let rs ← derive_remotes fs rest
    .ok (r :: rs)

/-! ## `PipelinesApi._get_files_to_upload` -/

/-- `_get_files_to_upload`: wrap each remote path in a `DbfsPath`, zip
with the local objects, and keep the pairs whose remote path the store
reports absent. `file_exists` is the DBFS collaborator. -/
def get_files_to_upload (file_exists : DbfsPath → Bool)
    (local_lib_objects remote_lib_objects : List (LibraryObject String)) :
    List (LibraryObject String × LibraryObject DbfsPath) :=
  let transformed_remote_lib_objects :=
    remote_lib_objects.map (fun rlo => LibraryObject.mk rlo.lib_type (DbfsPath.mk rlo.path))
  (local_lib_objects.zip transformed_remote_lib_objects).filter
    (fun lo_tuple => !(file_exists lo_tuple.2.path))

/-- The sequence of existence queries `_get_files_to_upload` issues: the
`filter` evaluates `file_exists` once on the remote path of every zipped
pair, in order. -/
def planned_existence_queries
    (local_lib_objects remote_lib_objects : List (LibraryObject String)) :
    List DbfsPath :=
  let transformed_remote_lib_objects :=
    remote_lib_objects.map (fun rlo => LibraryObject.mk rlo.lib_type (DbfsPath.mk rlo.path))
  (local_lib_objects.zip transformed_remote_lib_objects).map (fun lo_tuple => lo_tuple.2.path)

/-! ## The upload loop of `deploy` -/

/-- The `for llo, rlo in upload_files` loop: upload each pair with
`put_file(llo.path, rlo.path, False)`; on the first failure, raise the
upload RuntimeError naming the failing local path and the cause. The
first component is the trace of uploads that actually happened, in
order. -/
def upload_loop (put_file : String → DbfsPath → Bool → Except String Unit) :
    List (LibraryObject String × LibraryObject DbfsPath) →
    List (String × DbfsPath) × Except PyError Unit
  | [] => ([], .ok ())
  | (llo, rlo) :: rest =>
    match put_file llo.path rlo.path false with
    | .ok _ =>
      let r := upload_loop put_file rest
      ((llo.path, rlo.path) :: r.1, r.2)
    | .error e => ([], .error (.runtimeUploadError e llo.path))

/-- The remote store contents after a deploy: the initial store plus
every path that was actually uploaded (nothing is ever deleted). -/
def store_after (file_exists : DbfsPath → Bool) (uploads : List (String × DbfsPath)) :
    DbfsPath → Bool :=
  fun p => file_exists p || uploads.any (fun u => u.2 = p)

/-! ## `PipelinesApi._get_credentials_for_request` -/

/-- The attributes of a resolved `DatabricksConfig` that the source
consults: the two validity flags and the three credential fields (each
possibly `None`). -/
structure DatabricksConfig where
  is_valid : Bool
  is_valid_with_token : Bool
  token : Option String
  username : Option String
  password : Option String
deriving DecidableEq, Repr

/-- The config selection of `_get_credentials_for_request`: a truthy
profile (non-None, non-empty) selects `ProfileConfigProvider.get_config`,
otherwise `get_config()` is used. Both providers are collaborators. -/
def resolved_config (profile : Option String)
    (profileConfig : String → Option DatabricksConfig)
    (defaultConfig : Option DatabricksConfig) : Option DatabricksConfig :=
  match profile with
  | some p => if p.data = [] then defaultConfig else profileConfig p
  | none => defaultConfig

/-- `_get_credentials_for_request`: a missing or invalid config raises
`InvalidConfigurationError.for_profile(profile)`; a token-valid config
yields the single-key dictionary with the token; otherwise the two-key
user/password dictionary is returned. -/
def get_credentials_for_request (profile : Option String)
    (profileConfig : String → Option DatabricksConfig)
    (defaultConfig : Option DatabricksConfig) :
    Except PyError (List (String × Option String)) :=
  match resolved_config profile profileConfig defaultConfig with
  | none => .error (.invalidConfigurationError profile)
  | some config =>
    if !config.is_valid then .error (.invalidConfigurationError profile)
    else if config.is_valid_with_token then .ok [("token", config.token)]
    else .ok [("user", config.username), ("password", config.password)]

/-! ## `PipelinesApi.deploy` -/

/-- The deploy input: the spec dictionary, restricted to the keys the
module reads (`id`, `libraries`); each is optional because the source
uses `spec.get('libraries', [])` and `spec['id']` (KeyError if absent). -/
structure PipelineSpec where
  id : Option String
  libraries : Option (List (List (String × String)))
deriving DecidableEq, Repr

/-- The spec dictionary as submitted: after `deploy` has overwritten
`libraries` and added `credentials`. -/
structure SubmittedSpec where
  id : Option String
  libraries : List (List (String × String))
  credentials : List (String × Option String)
deriving DecidableEq, Repr

/-- The `perform_query` call made at the end of `deploy`. -/
structure Request where
  method : String
  path : String
  body : SubmittedSpec
  headers : Option (List (String × String))
deriving DecidableEq, Repr

instance {ε α : Type} [DecidableEq ε] [DecidableEq α] : DecidableEq (Except ε α) :=
  fun x y =>
    match x, y with
    | .ok a, .ok b =>
      if h : a = b then isTrue (h ▸ rfl) else isFalse (fun hh => h (Except.ok.inj hh))
    | .error a, .error b =>
      if h : a = b then isTrue (h ▸ rfl) else isFalse (fun hh => h (Except.error.inj hh))
    | .ok _, .error _ => isFalse (fun h => Except.noConfusion h)
    | .error _, .ok _ => isFalse (fun h => Except.noConfusion h)

/-- Result of a deploy call: the uploads that physically happened (in
order) and either the submitted request or the raised error. -/
structure DeployResult where
  uploads : List (String × DbfsPath)
  outcome : Except PyError Request
deriving DecidableEq, Repr

/-- `PipelinesApi.deploy`, sequenced exactly as the source: convert the
libraries, partition, derive every remote path, plan the uploads, run
the upload loop, rewrite `spec['libraries']` as pass-through plus all
derived remotes, resolve credentials, and PUT to `/pipelines/{id}`. -/
def deploy (fs : String → Except String (List Nat))
    (file_exists : DbfsPath → Bool)
    (put_file : String → DbfsPath → Bool → Except String Unit)
    (profile : Option String)
    (profileConfig : String → Option DatabricksConfig)
    (defaultConfig : Option DatabricksConfig)
    (spec : PipelineSpec)
    (headers : Option (List (String × String))) : DeployResult :=
  let lib_objects := LibraryObject.convert_from_libraries (spec.libraries.getD [])
  match partition_libraries_and_extract_local_paths lib_objects with
  | .error e => ⟨[], .error e⟩
  | .ok (local_lib_objects, rest_lib_objects) =>
    match derive_remotes fs local_lib_objects with
    | .error e => ⟨[], .error e⟩
    | .ok remote_lib_objects =>
      let upload_files := get_files_to_upload file_exists local_lib_objects remote_lib_objects
      let r := upload_loop put_file upload_files
      match r.2 with
      | .error e => ⟨r.1, .error e⟩
      | .ok _ =>
        let libraries :=
          LibraryObject.convert_to_libraries (rest_lib_objects ++ remote_lib_objects)
        match get_credentials_for_request profile profileConfig defaultConfig with
        | .error e => ⟨r.1, .error e⟩
        | .ok credentials =>
          match spec.id with
          | none => ⟨r.1, .error (.keyError "id")⟩
          | some pid =>
            ⟨r.1, .ok ⟨"PUT", "/pipelines/" ++ pid, ⟨some pid, libraries, credentials⟩, headers⟩⟩

/-! ## Spec-side refinement definitions

These two definitions follow the specification's words (not the source);
they are compared with the source-derived definitions in refinement
claims. -/

/-- The error taxonomy of the specification. -/
inductive SpecErrorKind where
  | invalidPath : SpecErrorKind
  | fileAccess : SpecErrorKind
  | upload : SpecErrorKind
  | configuration : SpecErrorKind
deriving DecidableEq, Repr

/-- Modelled from the spec (error-handling design): the taxonomy entry
each concrete exception belongs to. `InvalidPathError` is the malformed
file uri, `FileAccessError`/`HashError` the unreadable local file,
`UploadError` the failed upload, and `ConfigurationError` covers both an
unresolvable credential profile and a missing submission target
(`spec.id`), whose concrete exception is a KeyError. -/
def spec_error_kind : PyError → SpecErrorKind
  | .runtimeInvalidUri => .invalidPath
  | .runtimeFileError _ _ => .fileAccess
  | .runtimeUploadError _ _ => .upload
  | .keyError _ => .configuration
  | .invalidConfigurationError _ => .configuration

/-- Modelled from the spec: the claimed extension rule, "the substring
from the last dot in the final path segment, including the dot; the
empty string if there is none" — with no exception for leading dots. -/
def spec_claimed_extension (p : String) : String :=
  let seg :=
    match rfind_idx '/' p.data with
    | none => p.data
    | some s => p.data.drop (s + 1)
  match rfind_idx '.' seg with
  | none => ""
  | some d => String.mk (seg.drop d)

/-! ## Classification characterization

`is_local_lib` and `local_rewrite` restate the per-element dispatch of
the partition loop; the partition theorems prove the loop equal to
filter/map over them. -/

/-- A reference the classifier routes to the local side: a jar with no
uri scheme, or a jar with (case-insensitive) `file` scheme. -/
def is_local_lib (l : LibraryObject String) : Bool :=
  decide ((l.lib_type = "jar" ∧ urlsplit_scheme l.path = "") ∨
          (l.lib_type = "jar" ∧ str_lower (urlsplit_scheme l.path) = "file"))

/-- The rewriting the classifier applies to a local reference: bare
paths are kept, `file:` paths lose their first five characters. -/
def local_rewrite (l : LibraryObject String) : LibraryObject String :=
  if l.lib_type = "jar" ∧ urlsplit_scheme l.path = "" then l
  else LibraryObject.mk l.lib_type (str_drop l.path 5)

/-! ## Concrete fixtures for witnesses and counterexamples -/

/-- A one-file filesystem holding an empty hidden file. -/
def fs_cshrc : String → Except String (List Nat) := fun p =>
  if p = "/tmp/.cshrc" then .ok [] else .error "No such file or directory"

/-- A one-file filesystem holding an empty `a.jar`. -/
def fs_ajar : String → Except String (List Nat) := fun p =>
  if p = "a.jar" then .ok [] else .error "No such file or directory"

/-- A two-file filesystem holding empty `a.jar` and `b.jar`. -/
def fs_two : String → Except String (List Nat) := fun p =>
  if p = "a.jar" ∨ p = "b.jar" then .ok [] else .error "No such file or directory"

/-- A token-valid resolved configuration. -/
def cfg_token : DatabricksConfig := ⟨true, true, some "tok", none, none⟩

/-- A password-valid resolved configuration. -/
def cfg_userpass : DatabricksConfig := ⟨true, false, none, some "u", some "p"⟩

/-- An invalid resolved configuration. -/
def cfg_invalid : DatabricksConfig := ⟨false, false, none, none, none⟩

/-- A deployable spec: one local jar and one pass-through wheel. -/
def spec_ok : PipelineSpec :=
  ⟨some "p1", some [[("jar", "a.jar")], [("whl", "s3://b/x.whl")]]⟩

/-- A spec with two local jars (for the abort-on-failure witness). -/
def spec_twojars : PipelineSpec :=
  ⟨some "p2", some [[("jar", "a.jar")], [("jar", "b.jar")]]⟩

/-- A spec with no `id` entry. -/
def spec_noid : PipelineSpec := ⟨none, some [[("jar", "a.jar")]]⟩

/-- A put_file collaborator that always succeeds. -/
def put_ok : String → DbfsPath → Bool → Except String Unit := fun _ _ _ => .ok ()

/-- A put_file collaborator that rejects uploads of `b.jar`. -/
def put_fail_b : String → DbfsPath → Bool → Except String Unit := fun l _ _ =>
  if l = "b.jar" then .error "quota exceeded" else .ok ()

/-! ## Helper lemmas -/

theorem chunksGo_flatten {α : Type} (n : Nat) (hn : 0 < n) :
    ∀ (fuel : Nat) (l : List α), l.length ≤ fuel → (chunksGo n fuel l).flatten = l := by
  intro fuel
  induction fuel with
  | zero =>
    intro l hl
    cases l with
    | nil => rfl
    | cons a rest => simp at hl
  | succ fuel ih =>
    intro l hl
    cases l with
    | nil => rfl
    | cons a rest =>
      simp only [chunksGo, List.flatten_cons]
      rw [ih ((a :: rest).drop n)]
      · exact List.take_append_drop n (a :: rest)
      · rw [List.length_drop]
        simp only [List.length_cons] at hl ⊢
        omega

theorem chunks_flatten {α : Type} (n : Nat) (hn : 0 < n) (l : List α) :
    (chunks n l).flatten = l :=
  chunksGo_flatten n hn l.length l le_rfl

theorem convert_to_libraries_eq_map (lo : List (LibraryObject String)) :
    LibraryObject.convert_to_libraries lo = lo.map (fun l => [(l.lib_type, l.path)]) := by
  induction lo with
  | nil => rfl
  | cons a rest ih => simp [LibraryObject.convert_to_libraries, ih]

theorem convert_from_libraries_cons (d : List (String × String))
    (rest : List (List (String × String))) :
    LibraryObject.convert_from_libraries (d :: rest) =
      d.map (fun kv => ⟨kv.1, kv.2⟩) ++ LibraryObject.convert_from_libraries rest := rfl

theorem derive_remotes_length (fs : String → Except String (List Nat)) :
    ∀ (l r : List (LibraryObject String)), derive_remotes fs l = .ok r → r.length = l.length := by
  intro l
  induction l with
  | nil =>
    intro r h
    simp only [derive_remotes] at h
    cases h
    rfl
  | cons a rest ih =>
    intro r h
    simp only [derive_remotes, bind, Except.bind] at h
    cases ha : derive_remote fs a with
    | error e => rw [ha] at h; cases h
    | ok x =>
      rw [ha] at h
      cases hrest : derive_remotes fs rest with
      | error e => rw [hrest] at h; cases h
      | ok xs =>
        rw [hrest] at h
        cases h
        simp [ih xs hrest]

theorem derive_remotes_get (fs : String → Except String (List Nat)) :
    ∀ (l r : List (LibraryObject String)), derive_remotes fs l = .ok r →
      ∀ (i : Nat) (hi : i < l.length) (hi2 : i < r.length),
        derive_remote fs (l.get ⟨i, hi⟩) = .ok (r.get ⟨i, hi2⟩) := by
  intro l
  induction l with
  | nil => intro r h i hi; simp at hi
  | cons a rest ih =>
    intro r h i hi hi2
    simp only [derive_remotes, bind, Except.bind] at h
    cases ha : derive_remote fs a with
    | error e => rw [ha] at h; cases h
    | ok x =>
      rw [ha] at h
      cases hrest : derive_remotes fs rest with
      | error e => rw [hrest] at h; cases h
      | ok xs =>
        rw [hrest] at h
        cases h
        cases i with
        | zero => exact ha
        | succ j =>
          exact ih xs hrest j (Nat.lt_of_succ_lt_succ hi) (Nat.lt_of_succ_lt_succ hi2)

theorem derive_remote_ok (fs : String → Except String (List Nat))
    (llo x : LibraryObject String) (h : derive_remote fs llo = .ok x) :
    x.lib_type = llo.lib_type ∧ get_hashed_path fs llo.path = .ok x.path := by
  simp only [derive_remote] at h
  cases hg : get_hashed_path fs llo.path with
  | error e => rw [hg] at h; cases h
  | ok p =>
    rw [hg] at h
    simp only [Except.map] at h
    cases h
    exact ⟨rfl, rfl⟩

theorem filter_length_split {α : Type} (p : α → Bool) :
    ∀ l : List α, (l.filter p).length + (l.filter (fun x => !p x)).length = l.length := by
  intro l
  induction l with
  | nil => rfl
  | cons a rest ih =>
    by_cases ha : p a = true
    · simp [List.filter, ha, ih, Nat.succ_add]
    · simp only [Bool.not_eq_true] at ha
      simp [List.filter, ha, ih]
      omega

theorem is_local_lib_true_bare (l : LibraryObject String)
    (h : l.lib_type = "jar" ∧ urlsplit_scheme l.path = "") : is_local_lib l = true :=
  decide_eq_true (Or.inl h)

theorem is_local_lib_true_file (l : LibraryObject String)
    (h : l.lib_type = "jar" ∧ str_lower (urlsplit_scheme l.path) = "file") :
    is_local_lib l = true :=
  decide_eq_true (Or.inr h)

theorem is_local_lib_false (l : LibraryObject String)
    (h1 : ¬(l.lib_type = "jar" ∧ urlsplit_scheme l.path = ""))
    (h2 : ¬(l.lib_type = "jar" ∧ str_lower (urlsplit_scheme l.path) = "file")) :
    is_local_lib l = false :=
  decide_eq_false (fun hor => hor.elim h1 h2)

/-- The partition loop computes the filter/map characterization: local
output is the rewritten local-classified subsequence, remote output is
the complementary subsequence. -/
theorem partition_eq_filter_map :
    ∀ (libs loc rem : List (LibraryObject String)),
      partition_libraries_and_extract_local_paths libs = .ok (loc, rem) →
      loc = (libs.filter is_local_lib).map local_rewrite ∧
      rem = libs.filter (fun l => !is_local_lib l) := by
  intro libs
  induction libs with
  | nil =>
    intro loc rem h
    simp only [partition_libraries_and_extract_local_paths] at h
    cases h
    exact ⟨rfl, rfl⟩
  | cons a rest ih =>
    intro loc rem h
    simp only [partition_libraries_and_extract_local_paths] at h
    by_cases h1 : a.lib_type = "jar" ∧ urlsplit_scheme a.path = ""
    · rw [if_pos h1] at h
      cases hrest : partition_libraries_and_extract_local_paths rest with
      | error e => rw [hrest] at h; cases h
      | ok lr =>
        rw [hrest] at h
        simp only [Except.map] at h
        cases h
        obtain ⟨ih1, ih2⟩ := ih lr.1 lr.2 (by rw [hrest])
        constructor
        · rw [List.filter_cons_of_pos (is_local_lib_true_bare a h1), List.map_cons, ih1]
          have : local_rewrite a = a := if_pos h1
          rw [this]
        · rw [List.filter_cons_of_neg, ih2]
          simp [is_local_lib_true_bare a h1]
    · rw [if_neg h1] at h
      by_cases h2 : a.lib_type = "jar" ∧ str_lower (urlsplit_scheme a.path) = "file"
      · rw [if_pos h2] at h
        cases hb : str_startswith (str_drop a.path 4) ":////" with
        | true => rw [hb] at h; simp at h
        | false =>
          rw [hb] at h
          simp only [Bool.false_eq_true, if_false] at h
          cases hrest : partition_libraries_and_extract_local_paths rest with
          | error e => rw [hrest] at h; cases h
          | ok lr =>
            rw [hrest] at h
            simp only [Except.map] at h
            cases h
            obtain ⟨ih1, ih2⟩ := ih lr.1 lr.2 (by rw [hrest])
            constructor
            · rw [List.filter_cons_of_pos (is_local_lib_true_file a h2), List.map_cons, ih1]
              have : local_rewrite a = LibraryObject.mk a.lib_type (str_drop a.path 5) :=
                if_neg h1
              rw [this]
            · rw [List.filter_cons_of_neg, ih2]
              simp [is_local_lib_true_file a h2]
      · rw [if_neg h2] at h
        cases hrest : partition_libraries_and_extract_local_paths rest with
        | error e => rw [hrest] at h; cases h
        | ok lr =>
          rw [hrest] at h
          simp only [Except.map] at h
          cases h
          obtain ⟨ih1, ih2⟩ := ih lr.1 lr.2 (by rw [hrest])
          constructor
          · rw [List.filter_cons_of_neg, ih1]
            simp [is_local_lib_false a h1 h2]
          · rw [List.filter_cons_of_pos, ih2]
            simp [is_local_lib_false a h1 h2]

/-! ## Claims -/

/-- Claim C2, counterexample: the source strips only five characters
(the `file:` prefix), so `file:///tmp/a.jar` classifies to local path
`///tmp/a.jar`, not `/tmp/a.jar` as the claim states. -/
theorem claim_C2_counterexample :
    partition_libraries_and_extract_local_paths [⟨"jar", "file:///tmp/a.jar"⟩] =
      .ok ([⟨"jar", "///tmp/a.jar"⟩], []) ∧
    ("///tmp/a.jar" : String) ≠ "/tmp/a.jar" := by
  decide

/-- Claim C2, amended: a jar reference whose path has (case-insensitive)
`file` scheme and is not the malformed four-slash variant classifies as
local with its first five characters (the `file:` prefix) stripped:
`file:///tmp/a.jar` yields local path `///tmp/a.jar`. -/
theorem claim_C2_amended (l : LibraryObject String)
    (hjar : l.lib_type = "jar")
    (hscheme : str_lower (urlsplit_scheme l.path) = "file")
    (hnotmal : str_startswith (str_drop l.path 4) ":////" = false) :
    partition_libraries_and_extract_local_paths [l] =
      .ok ([LibraryObject.mk l.lib_type (str_drop l.path 5)], []) := by
  have hne : ¬(l.lib_type = "jar" ∧ urlsplit_scheme l.path = "") := by
    rintro ⟨-, h0⟩
    rw [h0] at hscheme
    exact absurd hscheme (by decide)
  simp only [partition_libraries_and_extract_local_paths]
  rw [if_neg hne, if_pos ⟨hjar, hscheme⟩, hnotmal]
  simp [partition_libraries_and_extract_local_paths, Except.map]

/-- Claim C2 witness: the amended claim at the concrete input of the
specification's example. -/
theorem claim_C2_witness :
    partition_libraries_and_extract_local_paths [⟨"jar", "file:///tmp/a.jar"⟩] =
      .ok ([LibraryObject.mk "jar" (str_drop "file:///tmp/a.jar" 5)], []) :=
  claim_C2_amended ⟨"jar", "file:///tmp/a.jar"⟩ (by decide) (by decide) (by decide)

/-- Claim C3, counterexample: a jar reference with `file` scheme is
rewritten during classification, so the input reference itself (equality
being exact field equality, as in `LibraryObject.__eq__`) appears in
neither output list. -/
theorem claim_C3_counterexample :
    partition_libraries_and_extract_local_paths [⟨"jar", "file:///a.jar"⟩] =
      .ok ([⟨"jar", "///a.jar"⟩], ([] : List (LibraryObject String))) ∧
    (⟨"jar", "file:///a.jar"⟩ : LibraryObject String) ∉
      [(⟨"jar", "///a.jar"⟩ : LibraryObject String)] ∧
    (⟨"jar", "file:///a.jar"⟩ : LibraryObject String) ∉ ([] : List (LibraryObject String)) := by
  decide

/-- Claim C3, amended: when classification succeeds, every input
reference is classified into exactly one of the two output lists with
relative order preserved — the local list is the order-preserving
rewrite (`local_rewrite`, identity except for `file:` stripping) of the
local-classified subsequence, the remote list is the complementary
subsequence unchanged, and the lengths add up. -/
theorem claim_C3_amended (libs loc rem : List (LibraryObject String))
    (h : partition_libraries_and_extract_local_paths libs = .ok (loc, rem)) :
    loc = (libs.filter is_local_lib).map local_rewrite ∧
    rem = libs.filter (fun l => !is_local_lib l) ∧
    loc.length + rem.length = libs.length := by
  obtain ⟨h1, h2⟩ := partition_eq_filter_map libs loc rem h
  refine ⟨h1, h2, ?_⟩
  rw [h1, h2, List.length_map]
  exact filter_length_split is_local_lib libs

/-- Claim C3 witness: the amended claim at a concrete three-element
input exercising all three classification branches. -/
theorem claim_C3_witness :
    ([⟨"jar", "a.jar"⟩, ⟨"jar", "///b.jar"⟩] : List (LibraryObject String)) =
      (([⟨"jar", "a.jar"⟩, ⟨"whl", "x.whl"⟩, ⟨"jar", "file:///b.jar"⟩] :
        List (LibraryObject String)).filter is_local_lib).map local_rewrite :=
  (claim_C3_amended
    [⟨"jar", "a.jar"⟩, ⟨"whl", "x.whl"⟩, ⟨"jar", "file:///b.jar"⟩]
    [⟨"jar", "a.jar"⟩, ⟨"jar", "///b.jar"⟩] [⟨"whl", "x.whl"⟩] (by decide)).1

set_option maxRecDepth 100000 in
/-- Claim C4, counterexample: the extension of a hidden file like
`/tmp/.cshrc` is empty under `os.path.splitext` (leading dots are
skipped), while the claimed rule (substring from the last dot of the
final segment) would give `.cshrc`; the derived remote path for the
empty hidden file therefore differs from the claimed
`namespaceRoot + digestHex + extension`. -/
theorem claim_C4_counterexample :
    fs_cshrc "/tmp/.cshrc" = .ok [] ∧
    spec_claimed_extension "/tmp/.cshrc" = ".cshrc" ∧
    get_hashed_path fs_cshrc "/tmp/.cshrc" =
      .ok "dbfs:/pipelines/code/da39a3ee5e6b4b0d3255bfef95601890afd80709" ∧
    ¬ get_hashed_path fs_cshrc "/tmp/.cshrc" =
      .ok (base_pipelines_dir ++ sha1_hexdigest [] ++ spec_claimed_extension "/tmp/.cshrc") := by
  decide

set_option maxRecDepth 100000 in
/-- Claim C4, amended: for every readable local file, derive returns
namespaceRoot + digestHex + extension, where digestHex is the lowercase
SHA-1 hex digest of the file bytes (the empty file yielding the known
constant, and equal byte content always yielding an equal digest part)
and extension is `os.path.splitext(path)[1]`: the substring from the
last dot of the final path segment including the dot, except that a dot
preceded only by dots in that segment (a hidden-file name) yields the
empty extension. -/
theorem claim_C4_amended (fs : String → Except String (List Nat)) (path : String)
    (bs : List Nat) (h : fs path = .ok bs) :
    get_hashed_path fs path =
      .ok (base_pipelines_dir ++ sha1_hexdigest bs ++ splitext_ext path) ∧
    sha1_hexdigest [] = "da39a3ee5e6b4b0d3255bfef95601890afd80709" ∧
    (∀ (fs2 : String → Except String (List Nat)) (path2 : String), fs2 path2 = .ok bs →
      ∃ ext2, get_hashed_path fs2 path2 =
        .ok (base_pipelines_dir ++ sha1_hexdigest bs ++ ext2)) := by
  have key : ∀ (g : String → Except String (List Nat)) (q : String), g q = .ok bs →
      get_hashed_path g q = .ok (base_pipelines_dir ++ sha1_hexdigest bs ++ splitext_ext q) := by
    intro g q hg
    simp only [get_hashed_path, hg]
    rw [chunks_flatten BUFFER_SIZE (by decide) bs]
  exact ⟨key fs path h, by decide, fun fs2 path2 h2 => ⟨splitext_ext path2, key fs2 path2 h2⟩⟩

set_option maxRecDepth 100000 in
/-- Claim C4 witness: the amended claim evaluated on a concrete
one-file filesystem holding an empty `a.jar`. -/
theorem claim_C4_witness :
    get_hashed_path fs_ajar "a.jar" =
      .ok (base_pipelines_dir ++ sha1_hexdigest [] ++ splitext_ext "a.jar") :=
  (claim_C4_amended fs_ajar "a.jar" [] (by decide)).1

/-- Claim C5: the upload plan is the order-preserving subsequence of the
zipped (local, derived-remote) pairs whose remote path the store reports
absent; a pair whose derived path exists remotely is excluded; zero
local references produce the empty plan and no existence queries. -/
theorem claim_C5_upload_planner (file_exists : DbfsPath → Bool)
    (locs rems : List (LibraryObject String)) :
    List.Sublist (get_files_to_upload file_exists locs rems)
      (locs.zip (rems.map (fun rlo => LibraryObject.mk rlo.lib_type (DbfsPath.mk rlo.path)))) ∧
    (∀ p : LibraryObject String × LibraryObject DbfsPath,
      p ∈ get_files_to_upload file_exists locs rems ↔
        p ∈ locs.zip (rems.map (fun rlo => LibraryObject.mk rlo.lib_type (DbfsPath.mk rlo.path))) ∧
        file_exists p.2.path = false) ∧
    (∀ p : LibraryObject String × LibraryObject DbfsPath,
      file_exists p.2.path = true → p ∉ get_files_to_upload file_exists locs rems) ∧
    (locs = [] → get_files_to_upload file_exists locs rems = [] ∧
      planned_existence_queries locs rems = []) := by
  refine ⟨List.filter_sublist _, ?_, ?_, ?_⟩
  · intro p
    simp only [get_files_to_upload, List.mem_filter, Bool.not_eq_true']
  · intro p hex hmem
    have := ((List.mem_filter).1 hmem).2
    simp only [Bool.not_eq_true'] at this
    rw [hex] at this
    cases this
  · intro hnil
    subst hnil
    exact ⟨rfl, rfl⟩

/-- Claim C5 witness: with one derived path already present remotely,
the planner keeps only the missing pair and the present pair is not in
the plan. -/
theorem claim_C5_witness :
    ((⟨"jar", "a.jar"⟩, ⟨"jar", DbfsPath.mk "dbfs:/pipelines/code/h1.jar"⟩) :
        LibraryObject String × LibraryObject DbfsPath) ∉
      get_files_to_upload (fun p => p.absolute_path == "dbfs:/pipelines/code/h1.jar")
        [⟨"jar", "a.jar"⟩, ⟨"jar", "b.jar"⟩]
        [⟨"jar", "dbfs:/pipelines/code/h1.jar"⟩, ⟨"jar", "dbfs:/pipelines/code/h2.jar"⟩] :=
  (claim_C5_upload_planner (fun p => p.absolute_path == "dbfs:/pipelines/code/h1.jar")
    [⟨"jar", "a.jar"⟩, ⟨"jar", "b.jar"⟩]
    [⟨"jar", "dbfs:/pipelines/code/h1.jar"⟩, ⟨"jar", "dbfs:/pipelines/code/h2.jar"⟩]).2.2.1
    _ (by decide)

/-- Claim C10: converting single-key mappings to library references and
back is the identity (order preserved); in general each mapping is
flattened into one reference per entry, so the round trip yields one
single-key mapping per original entry. -/
theorem claim_C10_convert_roundtrip :
    (∀ libs : List (List (String × String)), (∀ d ∈ libs, d.length = 1) →
      LibraryObject.convert_to_libraries (LibraryObject.convert_from_libraries libs) = libs) ∧
    (∀ libs : List (List (String × String)),
      LibraryObject.convert_to_libraries (LibraryObject.convert_from_libraries libs) =
        (libs.map (fun d => d.map (fun kv => [kv]))).flatten) := by
  have h2 : ∀ libs : List (List (String × String)),
      LibraryObject.convert_to_libraries (LibraryObject.convert_from_libraries libs) =
        (libs.map (fun d => d.map (fun kv => [kv]))).flatten := by
    intro libs
    induction libs with
    | nil => rfl
    | cons d rest ih =>
      rw [convert_from_libraries_cons, convert_to_libraries_eq_map, List.map_append,
          ← convert_to_libraries_eq_map, ← convert_to_libraries_eq_map, ih,
          List.map_cons, List.flatten_cons]
      congr 1
      rw [convert_to_libraries_eq_map, List.map_map]
      rfl
  refine ⟨?_, h2⟩
  intro libs hl
  rw [h2 libs]
  induction libs with
  | nil => rfl
  | cons d rest ih =>
    simp only [List.map_cons, List.flatten_cons]
    have hd := hl d (List.mem_cons_self d rest)
    cases d with
    | nil => simp at hd
    | cons kv tl =>
      cases tl with
      | nil =>
        simp only [List.map_cons, List.map_nil, List.singleton_append]
        rw [ih (fun x hx => hl x (List.mem_cons_of_mem _ hx))]
      | cons kv2 tl2 => simp at hd

/-- Claim C10 witness: the round trip at a concrete two-entry library
list. -/
theorem claim_C10_witness :
    LibraryObject.convert_to_libraries (LibraryObject.convert_from_libraries
      [[("jar", "a.jar")], [("whl", "s3://b/x.whl")]]) =
      [[("jar", "a.jar")], [("whl", "s3://b/x.whl")]] :=
  claim_C10_convert_roundtrip.1 [[("jar", "a.jar")], [("whl", "s3://b/x.whl")]] (by decide)

/-- Claim C7: a jar reference with `file` scheme whose path from index 4
onward begins with `:////` makes classification fail with the invalid
file uri error (the specification's InvalidPathError), and no partition
is produced. -/
theorem claim_C7_malformed_rejection (libs : List (LibraryObject String))
    (l : LibraryObject String) (hmem : l ∈ libs) (hjar : l.lib_type = "jar")
    (hscheme : urlsplit_scheme l.path = "file")
    (hmal : str_startswith (str_drop l.path 4) ":////" = true) :
    partition_libraries_and_extract_local_paths libs = .error .runtimeInvalidUri ∧
    spec_error_kind .runtimeInvalidUri = .invalidPath ∧
    ∀ pr, ¬ partition_libraries_and_extract_local_paths libs = .ok pr := by
  have herr : partition_libraries_and_extract_local_paths libs = .error .runtimeInvalidUri := by
    induction libs with
    | nil => cases hmem
    | cons a rest ih =>
      simp only [partition_libraries_and_extract_local_paths]
      rcases List.mem_cons.1 hmem with heq | hmem2
      · subst heq
        have hne1 : ¬(l.lib_type = "jar" ∧ urlsplit_scheme l.path = "") := by
          rintro ⟨-, h0⟩
          rw [hscheme] at h0
          exact absurd h0 (by decide)
        rw [if_neg hne1, if_pos ⟨hjar, by rw [hscheme]; decide⟩, hmal]
        simp
      · have hrec := ih hmem2
        rw [hrec]
        by_cases h1 : a.lib_type = "jar" ∧ urlsplit_scheme a.path = ""
        · rw [if_pos h1]; rfl
        · rw [if_neg h1]
          by_cases h2 : a.lib_type = "jar" ∧ str_lower (urlsplit_scheme a.path) = "file"
          · rw [if_pos h2]
            cases hb : str_startswith (str_drop a.path 4) ":////" with
            | true => rfl
            | false => simp [Except.map]
          · rw [if_neg h2]; rfl
  exact ⟨herr, rfl, fun pr hok => by rw [herr] at hok; cases hok⟩

/-- Claim C7 witness: the malformed four-slash `file:` uri rejected at a
concrete input. -/
theorem claim_C7_witness :
    partition_libraries_and_extract_local_paths
      [(⟨"jar", "file:////x.jar"⟩ : LibraryObject String)] = .error .runtimeInvalidUri :=
  (claim_C7_malformed_rejection [⟨"jar", "file:////x.jar"⟩] ⟨"jar", "file:////x.jar"⟩
    (by decide) (by decide) (by decide) (by decide)).1

/-- Claim C9: for every valid resolved configuration, credential
resolution returns exactly one of the two shapes (the single key
`token`, or the two keys `user`, `password`) — never both and never
neither — and for a missing or invalid configuration it fails with the
configuration error. -/
theorem claim_C9_credential_shapes (profile : Option String)
    (pc : String → Option DatabricksConfig) (dc : Option DatabricksConfig) :
    (∀ c : DatabricksConfig, resolved_config profile pc dc = some c → c.is_valid = true →
      ∃ creds, get_credentials_for_request profile pc dc = .ok creds ∧
        ((creds.map Prod.fst = ["token"] ∧ ¬ creds.map Prod.fst = ["user", "password"]) ∨
         (creds.map Prod.fst = ["user", "password"] ∧ ¬ creds.map Prod.fst = ["token"]))) ∧
    ((resolved_config profile pc dc = none ∨
      (∃ c, resolved_config profile pc dc = some c ∧ c.is_valid = false)) →
      get_credentials_for_request profile pc dc = .error (.invalidConfigurationError profile) ∧
      spec_error_kind (.invalidConfigurationError profile) = .configuration) := by
  constructor
  · intro c hres hvalid
    simp only [get_credentials_for_request, hres, hvalid]
    cases ht : c.is_valid_with_token
    · exact ⟨[("user", c.username), ("password", c.password)], by simp [ht],
        Or.inr ⟨by simp, by simp⟩⟩
    · exact ⟨[("token", c.token)], by simp [ht], Or.inl ⟨by simp, by simp⟩⟩
  · rintro (hnone | ⟨c, hsome, hinvalid⟩)
    · simp [get_credentials_for_request, hnone, spec_error_kind]
    · simp [get_credentials_for_request, hsome, hinvalid, spec_error_kind]

/-- Claim C9 witness: the token shape at a concrete valid token
configuration. -/
theorem claim_C9_witness :
    ∃ creds, get_credentials_for_request none (fun _ => none) (some cfg_token) = .ok creds ∧
      ((creds.map Prod.fst = ["token"] ∧ ¬ creds.map Prod.fst = ["user", "password"]) ∨
       (creds.map Prod.fst = ["user", "password"] ∧ ¬ creds.map Prod.fst = ["token"])) :=
  (claim_C9_credential_shapes none (fun _ => none) (some cfg_token)).1 cfg_token rfl rfl

theorem upload_loop_fail (put_file : String → DbfsPath → Bool → Except String Unit)
    (c : String) :
    ∀ (plan : List (LibraryObject String × LibraryObject DbfsPath)) (i : Nat)
      (hi : i < plan.length),
      (∀ (j : Nat) (hj : j < plan.length), j < i →
        put_file (plan.get ⟨j, hj⟩).1.path (plan.get ⟨j, hj⟩).2.path false = .ok ()) →
      put_file (plan.get ⟨i, hi⟩).1.path (plan.get ⟨i, hi⟩).2.path false = .error c →
      upload_loop put_file plan =
        ((plan.take i).map (fun pr => (pr.1.path, pr.2.path)),
         .error (.runtimeUploadError c (plan.get ⟨i, hi⟩).1.path)) := by
  intro plan
  induction plan with
  | nil => intro i hi; simp at hi
  | cons p rest ih =>
    intro i hi hok hfail
    obtain ⟨llo, rlo⟩ := p
    cases i with
    | zero =>
      simp only [List.get] at hfail
      simp only [upload_loop, hfail]
      simp [List.take]
    | succ i2 =>
      have h0 := hok 0 (Nat.succ_pos _) (Nat.succ_pos _)
      simp only [List.get] at h0 hfail
      simp only [upload_loop, h0]
      rw [ih i2 (Nat.lt_of_succ_lt_succ hi) ?hoks hfail]
      · simp [List.take]
      case hoks =>
        intro j hj hjlt
        have := hok (j + 1) (Nat.succ_lt_succ hj) (Nat.succ_lt_succ hjlt)
        simpa [List.get] using this

theorem mem_take_map {α β : Type} (f : α → β) :
    ∀ (l : List α) (i j : Nat) (hj : j < l.length), j < i →
      f (l.get ⟨j, hj⟩) ∈ (l.take i).map f := by
  intro l
  induction l with
  | nil => intro i j hj; simp at hj
  | cons a rest ih =>
    intro i j hj hji
    cases i with
    | zero => simp at hji
    | succ i2 =>
      cases j with
      | zero => simp [List.take]
      | succ j2 =>
        simp only [List.take, List.map_cons, List.get]
        exact List.mem_cons_of_mem _ (ih i2 j2 (Nat.lt_of_succ_lt_succ hj)
          (Nat.lt_of_succ_lt_succ hji))

/-- Claim C6: if the upload of plan pair i fails, the deploy aborts with
the upload error naming the failing local path and wrapping the cause,
the trace of performed uploads is exactly the first i pairs (so later
pairs are never attempted), and the paths uploaded before the failure
are present in the store afterwards. -/
theorem claim_C6_abort_on_upload_failure
    (fs : String → Except String (List Nat)) (file_exists : DbfsPath → Bool)
    (put_file : String → DbfsPath → Bool → Except String Unit)
    (profile : Option String) (pc : String → Option DatabricksConfig)
    (dc : Option DatabricksConfig) (spec : PipelineSpec)
    (headers : Option (List (String × String)))
    (locs rems remotes : List (LibraryObject String)) (i : Nat) (c : String)
    (hp : partition_libraries_and_extract_local_paths
      (LibraryObject.convert_from_libraries (spec.libraries.getD [])) = .ok (locs, rems))
    (hd : derive_remotes fs locs = .ok remotes)
    (hi : i < (get_files_to_upload file_exists locs remotes).length)
    (hok : ∀ (j : Nat) (hj : j < (get_files_to_upload file_exists locs remotes).length), j < i →
      put_file ((get_files_to_upload file_exists locs remotes).get ⟨j, hj⟩).1.path
        ((get_files_to_upload file_exists locs remotes).get ⟨j, hj⟩).2.path false = .ok ())
    (hfail : put_file ((get_files_to_upload file_exists locs remotes).get ⟨i, hi⟩).1.path
      ((get_files_to_upload file_exists locs remotes).get ⟨i, hi⟩).2.path false = .error c) :
    (deploy fs file_exists put_file profile pc dc spec headers).uploads =
      ((get_files_to_upload file_exists locs remotes).take i).map
        (fun pr => (pr.1.path, pr.2.path)) ∧
    (deploy fs file_exists put_file profile pc dc spec headers).outcome =
      .error (.runtimeUploadError c
        ((get_files_to_upload file_exists locs remotes).get ⟨i, hi⟩).1.path) ∧
    spec_error_kind (.runtimeUploadError c
      ((get_files_to_upload file_exists locs remotes).get ⟨i, hi⟩).1.path) = .upload ∧
    (∀ (j : Nat) (hj : j < (get_files_to_upload file_exists locs remotes).length), j < i →
      store_after file_exists (deploy fs file_exists put_file profile pc dc spec headers).uploads
        ((get_files_to_upload file_exists locs remotes).get ⟨j, hj⟩).2.path = true) := by
  have hu := upload_loop_fail put_file c (get_files_to_upload file_exists locs remotes)
    i hi hok hfail
  have hres : deploy fs file_exists put_file profile pc dc spec headers =
      ⟨((get_files_to_upload file_exists locs remotes).take i).map
        (fun pr => (pr.1.path, pr.2.path)),
       .error (.runtimeUploadError c
         ((get_files_to_upload file_exists locs remotes).get ⟨i, hi⟩).1.path)⟩ := by
    simp only [deploy, hp, hd, hu]
  refine ⟨by rw [hres], by rw [hres], rfl, ?_⟩
  intro j hj hji
  rw [hres]
  simp only [store_after]
  have hmem : (((get_files_to_upload file_exists locs remotes).get ⟨j, hj⟩).1.path,
      ((get_files_to_upload file_exists locs remotes).get ⟨j, hj⟩).2.path) ∈
      ((get_files_to_upload file_exists locs remotes).take i).map
        (fun pr => (pr.1.path, pr.2.path)) :=
    mem_take_map _ _ i j hj hji
  have hany : (((get_files_to_upload file_exists locs remotes).take i).map
      (fun pr => (pr.1.path, pr.2.path))).any
      (fun u => u.2 = ((get_files_to_upload file_exists locs remotes).get ⟨j, hj⟩).2.path) =
      true := by
    rw [List.any_eq_true]
    exact ⟨_, hmem, by simp⟩
  rw [hany, Bool.or_true]

set_option maxRecDepth 100000 in
/-- Claim C6 witness: with two empty local jars deriving the same remote
path, a put_file collaborator failing on the second upload leaves
exactly the first upload in the trace. -/
theorem claim_C6_witness :
    (deploy fs_two (fun _ => false) put_fail_b none (fun _ => none) (some cfg_token)
      spec_twojars none).uploads =
      ((get_files_to_upload (fun _ => false)
        [⟨"jar", "a.jar"⟩, ⟨"jar", "b.jar"⟩]
        [⟨"jar", "dbfs:/pipelines/code/da39a3ee5e6b4b0d3255bfef95601890afd80709.jar"⟩,
         ⟨"jar", "dbfs:/pipelines/code/da39a3ee5e6b4b0d3255bfef95601890afd80709.jar"⟩]).take 1).map
        (fun pr => (pr.1.path, pr.2.path)) :=
  (claim_C6_abort_on_upload_failure fs_two (fun _ => false) put_fail_b none (fun _ => none)
    (some cfg_token) spec_twojars none
    [⟨"jar", "a.jar"⟩, ⟨"jar", "b.jar"⟩] []
    [⟨"jar", "dbfs:/pipelines/code/da39a3ee5e6b4b0d3255bfef95601890afd80709.jar"⟩,
     ⟨"jar", "dbfs:/pipelines/code/da39a3ee5e6b4b0d3255bfef95601890afd80709.jar"⟩]
    1 "quota exceeded" (by decide) (by decide) (by decide)
    (by intro j hj hjlt
        have hj0 : j = 0 := by omega
        subst hj0
        have h00 : put_fail_b "a.jar"
            (DbfsPath.mk "dbfs:/pipelines/code/da39a3ee5e6b4b0d3255bfef95601890afd80709.jar")
            false = .ok () := by decide
        exact h00)
    (by
      have h1f : put_fail_b "b.jar"
          (DbfsPath.mk "dbfs:/pipelines/code/da39a3ee5e6b4b0d3255bfef95601890afd80709.jar")
          false = .error "quota exceeded" := by decide
      exact h1f)).1

/-- Claim C8: a deploy whose spec lacks an `id` entry and that reaches
the submission step (credentials resolved) fails with the KeyError on
`id` — which the specification's taxonomy classes as ConfigurationError
(missing submission target) — and nothing is submitted. -/
theorem claim_C8_missing_id
    (fs : String → Except String (List Nat)) (file_exists : DbfsPath → Bool)
    (put_file : String → DbfsPath → Bool → Except String Unit)
    (profile : Option String) (pc : String → Option DatabricksConfig)
    (dc : Option DatabricksConfig) (spec : PipelineSpec)
    (headers : Option (List (String × String)))
    (locs rems remotes : List (LibraryObject String))
    (creds : List (String × Option String))
    (hid : spec.id = none)
    (hp : partition_libraries_and_extract_local_paths
      (LibraryObject.convert_from_libraries (spec.libraries.getD [])) = .ok (locs, rems))
    (hd : derive_remotes fs locs = .ok remotes)
    (hu : (upload_loop put_file (get_files_to_upload file_exists locs remotes)).2 = .ok ())
    (hc : get_credentials_for_request profile pc dc = .ok creds) :
    (deploy fs file_exists put_file profile pc dc spec headers).outcome =
      .error (.keyError "id") ∧
    spec_error_kind (.keyError "id") = .configuration ∧
    (∀ req, ¬ (deploy fs file_exists put_file profile pc dc spec headers).outcome =
      .ok req) := by
  have hmain : (deploy fs file_exists put_file profile pc dc spec headers).outcome =
      .error (.keyError "id") := by
    simp only [deploy, hp, hd, hu, hc, hid]
  exact ⟨hmain, rfl, fun req h => by rw [hmain] at h; cases h⟩

set_option maxRecDepth 100000 in
/-- Claim C8 witness: the missing-id failure at a concrete deploy whose
every other step succeeds. -/
theorem claim_C8_witness :
    (deploy fs_ajar (fun _ => false) put_ok none (fun _ => none) (some cfg_token)
      spec_noid none).outcome = .error (.keyError "id") :=
  (claim_C8_missing_id fs_ajar (fun _ => false) put_ok none (fun _ => none) (some cfg_token)
    spec_noid none [⟨"jar", "a.jar"⟩] []
    [⟨"jar", "dbfs:/pipelines/code/da39a3ee5e6b4b0d3255bfef95601890afd80709.jar"⟩]
    [("token", some "tok")] rfl (by decide) (by decide) (by decide) (by decide)).1

theorem deploy_ok_libraries
    (fs : String → Except String (List Nat)) (file_exists : DbfsPath → Bool)
    (put_file : String → DbfsPath → Bool → Except String Unit)
    (profile : Option String) (pc : String → Option DatabricksConfig)
    (dc : Option DatabricksConfig) (spec : PipelineSpec)
    (headers : Option (List (String × String)))
    (locs rems remotes : List (LibraryObject String)) (req : Request)
    (hp : partition_libraries_and_extract_local_paths
      (LibraryObject.convert_from_libraries (spec.libraries.getD [])) = .ok (locs, rems))
    (hd : derive_remotes fs locs = .ok remotes)
    (hr : (deploy fs file_exists put_file profile pc dc spec headers).outcome = .ok req) :
    req.body.libraries = LibraryObject.convert_to_libraries (rems ++ remotes) := by
  simp only [deploy, hp, hd] at hr
  cases hu : (upload_loop put_file (get_files_to_upload file_exists locs remotes)).2 with
  | error e => rw [hu] at hr; simp at hr
  | ok u =>
    rw [hu] at hr
    cases hc : get_credentials_for_request profile pc dc with
    | error e => rw [hc] at hr; simp at hr
    | ok creds =>
      rw [hc] at hr
      cases hid : spec.id with
      | none => rw [hid] at hr; simp at hr
      | some pid =>
        rw [hid] at hr
        simp only at hr
        cases hr
        rfl

/-- Claim C1: every deploy that reaches submission attaches exactly the
pass-through remote references followed by the derived remote reference
for every local reference — N local plus K pass-through inputs make
N + K entries, each local entry keeping its kind with its path replaced
by the derived remote path — and the attached list is the same whatever
the remote store reported (so whichever subset actually uploaded). -/
theorem claim_C1_rewrite_completeness
    (fs : String → Except String (List Nat)) (file_exists : DbfsPath → Bool)
    (put_file : String → DbfsPath → Bool → Except String Unit)
    (profile : Option String) (pc : String → Option DatabricksConfig)
    (dc : Option DatabricksConfig) (spec : PipelineSpec)
    (headers : Option (List (String × String)))
    (locs rems remotes : List (LibraryObject String)) (req : Request)
    (hp : partition_libraries_and_extract_local_paths
      (LibraryObject.convert_from_libraries (spec.libraries.getD [])) = .ok (locs, rems))
    (hd : derive_remotes fs locs = .ok remotes)
    (hr : (deploy fs file_exists put_file profile pc dc spec headers).outcome = .ok req) :
    req.body.libraries = LibraryObject.convert_to_libraries (rems ++ remotes) ∧
    req.body.libraries.length = rems.length + locs.length ∧
    (∀ (i : Nat) (hi : i < locs.length) (hi2 : i < remotes.length),
      (remotes.get ⟨i, hi2⟩).lib_type = (locs.get ⟨i, hi⟩).lib_type ∧
      get_hashed_path fs (locs.get ⟨i, hi⟩).path = .ok (remotes.get ⟨i, hi2⟩).path) ∧
    (∀ (fe2 : DbfsPath → Bool) (req2 : Request),
      (deploy fs fe2 put_file profile pc dc spec headers).outcome = .ok req2 →
      req2.body.libraries = req.body.libraries) := by
  have h1 := deploy_ok_libraries fs file_exists put_file profile pc dc spec headers
    locs rems remotes req hp hd hr
  refine ⟨h1, ?_, ?_, ?_⟩
  · rw [h1, convert_to_libraries_eq_map, List.length_map, List.length_append,
        derive_remotes_length fs locs remotes hd]
  · intro i hi hi2
    exact derive_remote_ok fs _ _ (derive_remotes_get fs locs remotes hd i hi hi2)
  · intro fe2 req2 hr2
    rw [deploy_ok_libraries fs fe2 put_file profile pc dc spec headers
      locs rems remotes req2 hp hd hr2, h1]

set_option maxRecDepth 100000 in
/-- Claim C1 witness: a concrete deploy with one local jar and one
pass-through wheel submits the two-entry rewritten library list. -/
theorem claim_C1_witness :
    (Request.mk "PUT" "/pipelines/p1"
      ⟨some "p1",
       [[("whl", "s3://b/x.whl")],
        [("jar", "dbfs:/pipelines/code/da39a3ee5e6b4b0d3255bfef95601890afd80709.jar")]],
       [("token", some "tok")]⟩ none).body.libraries =
      LibraryObject.convert_to_libraries
        ([⟨"whl", "s3://b/x.whl"⟩] ++
         [⟨"jar", "dbfs:/pipelines/code/da39a3ee5e6b4b0d3255bfef95601890afd80709.jar"⟩]) :=
  (claim_C1_rewrite_completeness fs_ajar (fun _ => false) put_ok none (fun _ => none)
    (some cfg_token) spec_ok none
    [⟨"jar", "a.jar"⟩] [⟨"whl", "s3://b/x.whl"⟩]
    [⟨"jar", "dbfs:/pipelines/code/da39a3ee5e6b4b0d3255bfef95601890afd80709.jar"⟩]
    (Request.mk "PUT" "/pipelines/p1"
      ⟨some "p1",
       [[("whl", "s3://b/x.whl")],
        [("jar", "dbfs:/pipelines/code/da39a3ee5e6b4b0d3255bfef95601890afd80709.jar")]],
       [("token", some "tok")]⟩ none)
    (by decide) (by decide) (by decide)).1

end DeltaPipelines
